import Mathlib

/-
Verification of the APC1 protocol codec (apc1-core): the checksum
primitive, the command encoders for the I2C and UART variants
(request.rs), and the response decoders for the 64-byte measurement
frame and the 23-byte module frame (response.rs).

Bytes are modelled as Fin 256; u16 wrapping addition is modelled as
addition modulo 65536 on Nat; fixed-size Rust arrays are modelled as
lists together with a length hypothesis; Rust Result is modelled as
Except.
-/

deriving instance DecidableEq for Except

namespace Apc1

/-- Byte models the Rust u8 type. -/
abbrev Byte := Fin 256

/-- byte builds a Byte from a Nat, reducing modulo 256 as a u8 cast does. -/
def byte (x : Nat) : Byte := ⟨x % 256, Nat.mod_lt x (by decide)⟩

/-- checksumFold models the shared checksum computation: fold over the
bytes with u16 wrapping addition starting from 0, as in the folds of
response.rs and in calculate_checksum of request.rs. -/
def checksumFold (bytes : List Byte) : Nat :=
  bytes.foldl (fun acc elem => (acc + elem.val) % 65536) 0

/-- u16_from_be_bytes models u16::from_be_bytes on two bytes. -/
def u16_from_be_bytes (hi lo : Byte) : Nat := hi.val * 256 + lo.val

/-- u32_from_be_bytes models u32::from_be_bytes on four bytes. -/
def u32_from_be_bytes (b0 b1 b2 b3 : Byte) : Nat :=
  ((b0.val * 256 + b1.val) * 256 + b2.val) * 256 + b3.val

/-- u64_from_be_bytes models u64::from_be_bytes on eight bytes. -/
def u64_from_be_bytes (b0 b1 b2 b3 b4 b5 b6 b7 : Byte) : Nat :=
  ((((((b0.val * 256 + b1.val) * 256 + b2.val) * 256 + b3.val) * 256
    + b4.val) * 256 + b5.val) * 256 + b6.val) * 256 + b7.val

/-- DeviceErrorCode models the newtype over the device error byte from
response.rs. -/
structure DeviceErrorCode where
  code : Byte
deriving DecidableEq, Repr

/-- Error models the crate error enum from lib.rs (the embedded-only I2C
variant is feature-gated out of the core build). -/
inductive Error where
  | InvalidHeader
  | InvalidName
  | Checksum (expected actual : Nat)
  | Device (code : DeviceErrorCode)
deriving DecidableEq, Repr

/-- Measurement models the decoded 64-byte measurement record from
response.rs; every numeric field is carried as a Nat. -/
structure Measurement where
  pm1_0 : Nat
  pm2_5 : Nat
  pm10 : Nat
  pm1_0_in_air : Nat
  pm2_5_in_air : Nat
  pm10_in_air : Nat
  um_0_3_particles : Nat
  um_0_5_particles : Nat
  um_1_particles : Nat
  um_2_5_particles : Nat
  um_5_particles : Nat
  um_10_particles : Nat
  tvoc : Nat
  eco2 : Nat
  reserved0 : Nat
  t_comp : Nat
  rh_comp : Nat
  t_raw : Nat
  rh_raw : Nat
  rs_0 : Nat
  rs_1 : Nat
  rs_2 : Nat
  rs_3 : Nat
  aqi : Nat
  reserved1 : Nat
  version : Nat
deriving DecidableEq, Repr

/-- Measurement.try_from models the TryFrom impl for Measurement in
response.rs, line for line: checksum over the first 62 bytes against the
trailing big-endian u16, then the fixed 4-byte header, then the device
error byte at index 61, then field extraction at the offsets written in
the source (including the duplicated index 12 on pm2_5_in_air). -/
def Measurement.try_from (value : List Byte) : Except Error Measurement :=
  let expected_checksum := u16_from_be_bytes (value.getD 62 0) (value.getD 63 0)
  let actual_checksum := checksumFold (value.take 62)
  if expected_checksum ≠ actual_checksum then
    .error (.Checksum expected_checksum actual_checksum)
  else if value.take 4 ≠ [byte 0x42, byte 0x4D, byte 0x00, byte 0x3C] then
    .error .InvalidHeader
  else if value.getD 61 0 ≠ 0 then
    .error (.Device ⟨value.getD 61 0⟩)
  else
    .ok {
      pm1_0 := u16_from_be_bytes (value.getD 4 0) (value.getD 5 0)
      pm2_5 := u16_from_be_bytes (value.getD 6 0) (value.getD 7 0)
      pm10 := u16_from_be_bytes (value.getD 8 0) (value.getD 9 0)
      pm1_0_in_air := u16_from_be_bytes (value.getD 10 0) (value.getD 11 0)
      pm2_5_in_air := u16_from_be_bytes (value.getD 12 0) (value.getD 12 0)
      pm10_in_air := u16_from_be_bytes (value.getD 14 0) (value.getD 15 0)
      um_0_3_particles := u16_from_be_bytes (value.getD 16 0) (value.getD 17 0)
      um_0_5_particles := u16_from_be_bytes (value.getD 18 0) (value.getD 19 0)
      um_1_particles := u16_from_be_bytes (value.getD 20 0) (value.getD 21 0)
      um_2_5_particles := u16_from_be_bytes (value.getD 22 0) (value.getD 23 0)
      um_5_particles := u16_from_be_bytes (value.getD 24 0) (value.getD 25 0)
      um_10_particles := u16_from_be_bytes (value.getD 26 0) (value.getD 27 0)
      tvoc := u16_from_be_bytes (value.getD 28 0) (value.getD 29 0)
      eco2 := u16_from_be_bytes (value.getD 30 0) (value.getD 31 0)
      reserved0 := u16_from_be_bytes (value.getD 32 0) (value.getD 33 0)
      t_comp := u16_from_be_bytes (value.getD 34 0) (value.getD 35 0)
      rh_comp := u16_from_be_bytes (value.getD 36 0) (value.getD 37 0)
      t_raw := u16_from_be_bytes (value.getD 38 0) (value.getD 39 0)
      rh_raw := u16_from_be_bytes (value.getD 40 0) (value.getD 41 0)
      rs_0 := u32_from_be_bytes (value.getD 42 0) (value.getD 43 0) (value.getD 44 0) (value.getD 45 0)
      rs_1 := u32_from_be_bytes (value.getD 46 0) (value.getD 47 0) (value.getD 48 0) (value.getD 49 0)
      rs_2 := u32_from_be_bytes (value.getD 50 0) (value.getD 51 0) (value.getD 52 0) (value.getD 53 0)
      rs_3 := u32_from_be_bytes (value.getD 54 0) (value.getD 55 0) (value.getD 56 0) (value.getD 57 0)
      aqi := (value.getD 58 0).val
      reserved1 := (value.getD 59 0).val
      version := (value.getD 60 0).val
    }

/-- Module models the decoded 23-byte module identity record from
response.rs. The Rust String field is modelled as a Lean String built
from the same one-byte-per-character mapping. -/
structure Module where
  name_and_type : String
  serial_number : Nat
  delimiter : Char
  fw_version_major : Nat
  fw_version_minor : Nat
deriving DecidableEq, Repr

/-- Module.try_from models the TryFrom impl for Module in response.rs:
checksum over the first 21 bytes against the trailing big-endian u16,
then the fixed 4-byte header, then field extraction (six name bytes at
offsets 4 to 9 each cast to a character, big-endian u64 serial number at
offsets 10 to 17, delimiter character at 18, firmware version bytes at
19 and 20). -/
def Module.try_from (value : List Byte) : Except Error Module :=
  let expected_checksum := u16_from_be_bytes (value.getD 21 0) (value.getD 22 0)
  let actual_checksum := checksumFold (value.take 21)
  if expected_checksum ≠ actual_checksum then
    .error (.Checksum expected_checksum actual_checksum)
  else if value.take 4 ≠ [byte 0x42, byte 0x4D, byte 0x00, byte 0x13] then
    .error .InvalidHeader
  else
    .ok {
      name_and_type := String.mk (((value.drop 4).take 6).map (fun b => Char.ofNat b.val))
      serial_number := u64_from_be_bytes (value.getD 10 0) (value.getD 11 0)
        (value.getD 12 0) (value.getD 13 0) (value.getD 14 0) (value.getD 15 0)
        (value.getD 16 0) (value.getD 17 0)
      delimiter := Char.ofNat (value.getD 18 0).val
      fw_version_major := (value.getD 19 0).val
      fw_version_minor := (value.getD 20 0).val
    }

/-- fault_display_value models the seven values interpolated by the
Display impl for DeviceErrorCode in response.rs: the n-th written value
is the error byte XOR (1 shifted left by n), for n from 0 (fan restarts)
through 6 (temperature or humidity sensor). -/
def DeviceErrorCode.fault_display_value (e : DeviceErrorCode) (n : Fin 7) : Nat :=
  Nat.xor e.code.val (Nat.shiftLeft 1 n.val)

/-- MAGIC models the two magic bytes that start each command frame in
request.rs. -/
def MAGIC : List Byte := [byte 0x42, byte 0x4D]

/-- TOGGLE_DEVICE_MODE is the opcode byte for the device mode command. -/
def TOGGLE_DEVICE_MODE : Byte := byte 0xE4

/-- MEASUREMENT_MODE is the mode-low byte placing the device in
measurement mode. -/
def MEASUREMENT_MODE : Byte := byte 1

/-- IDLE_MODE is the mode-low byte placing the device in idle mode. -/
def IDLE_MODE : Byte := byte 0

/-- READ_MODULE_ID is the opcode byte requesting module type, ID and
firmware version. -/
def READ_MODULE_ID : Byte := byte 0xE9

/-- calculate_checksum models the function of the same name in
request.rs: the wrapping u16 byte sum of the payload, serialized
big-endian as two bytes. -/
def calculate_checksum (payload : List Byte) : List Byte :=
  [byte (checksumFold payload / 256), byte (checksumFold payload % 256)]

/-- withChecksum models the shared encoding step of every to_bytes arm:
the five payload bytes followed by their two checksum bytes. -/
def withChecksum (payload : List Byte) : List Byte :=
  payload ++ calculate_checksum payload

namespace i2c

/-- RESET_DEVICE is the I2C-only mode-low byte requesting a device
reset. -/
def RESET_DEVICE : Byte := byte 0x0F

/-- Command models the I2C command enum from request.rs. -/
inductive Command where
  | SetIdleMode
  | SetActiveMode
  | Reset
  | ReadModuleId
deriving DecidableEq, Repr, Fintype

/-- Command.to_bytes models i2c::Command::to_bytes from request.rs. -/
def Command.to_bytes : Command → List Byte
  | .SetIdleMode =>
      withChecksum [MAGIC.getD 0 0, MAGIC.getD 1 0, TOGGLE_DEVICE_MODE, 0, IDLE_MODE]
  | .SetActiveMode =>
      withChecksum [MAGIC.getD 0 0, MAGIC.getD 1 0, TOGGLE_DEVICE_MODE, 0, MEASUREMENT_MODE]
  | .ReadModuleId =>
      withChecksum [MAGIC.getD 0 0, MAGIC.getD 1 0, READ_MODULE_ID, 0, 0]
  | .Reset =>
      withChecksum [MAGIC.getD 0 0, MAGIC.getD 1 0, TOGGLE_DEVICE_MODE, 0, RESET_DEVICE]

end i2c

namespace uart

/-- TOGGLE_MEASUREMENT_MODE is the UART-only opcode byte toggling
between active and passive measurement. -/
def TOGGLE_MEASUREMENT_MODE : Byte := byte 0xE1

/-- ACTIVE_MEASUREMENT_MODE is the mode-low byte for active
measurement. -/
def ACTIVE_MEASUREMENT_MODE : Byte := byte 1

/-- PASSIVE_MEASUREMENT_MODE is the mode-low byte for passive
measurement. -/
def PASSIVE_MEASUREMENT_MODE : Byte := byte 0

/-- REQUEST_MEASUREMENT is the UART-only opcode byte requesting a single
measurement. -/
def REQUEST_MEASUREMENT : Byte := byte 0xE2

/-- Command models the UART command enum from request.rs; it has exactly
these six variants and no reset variant. -/
inductive Command where
  | SetActiveMeasurement
  | SetPassiveMeasurement
  | RequestMeasurement
  | SetIdleMode
  | SetActiveMode
  | ReadModuleId
deriving DecidableEq, Repr, Fintype

/-- Command.to_bytes models uart::Command::to_bytes from request.rs. -/
def Command.to_bytes : Command → List Byte
  | .SetActiveMeasurement =>
      withChecksum [MAGIC.getD 0 0, MAGIC.getD 1 0, TOGGLE_MEASUREMENT_MODE, 0, ACTIVE_MEASUREMENT_MODE]
  | .SetPassiveMeasurement =>
      withChecksum [MAGIC.getD 0 0, MAGIC.getD 1 0, TOGGLE_MEASUREMENT_MODE, 0, PASSIVE_MEASUREMENT_MODE]
  | .RequestMeasurement =>
      withChecksum [MAGIC.getD 0 0, MAGIC.getD 1 0, REQUEST_MEASUREMENT, 0, 0]
  | .SetIdleMode =>
      withChecksum [MAGIC.getD 0 0, MAGIC.getD 1 0, TOGGLE_DEVICE_MODE, 0, IDLE_MODE]
  | .SetActiveMode =>
      withChecksum [MAGIC.getD 0 0, MAGIC.getD 1 0, TOGGLE_DEVICE_MODE, 0, MEASUREMENT_MODE]
  | .ReadModuleId =>
      withChecksum [MAGIC.getD 0 0, MAGIC.getD 1 0, READ_MODULE_ID, 0, 0]

end uart

/-- scenario1 is the valid 64-byte measurement buffer from the test
try_from_valid_measurement and spec Scenario 1. -/
def scenario1 : List Byte :=
  [66, 77, 0, 60, 0, 0, 0, 0, 0, 0, 0, 0, 0, 0, 0, 0, 1, 80, 0, 100, 0, 20, 0, 10, 0, 0,
   0, 0, 0, 37, 1, 173, 0, 1, 0, 202, 2, 69, 0, 251, 1, 181, 0, 3, 101, 146, 0, 0, 0, 1,
   0, 12, 19, 208, 0, 0, 147, 102, 1, 0, 35, 0, 8, 59]

/-- scenario2 is scenario1 with byte 11 incremented by 1, from the test
try_from_measurement_invalid_checksum and spec Scenario 2. -/
def scenario2 : List Byte :=
  [66, 77, 0, 60, 0, 0, 0, 0, 0, 0, 0, 1, 0, 0, 0, 0, 1, 80, 0, 100, 0, 20, 0, 10, 0, 0,
   0, 0, 0, 37, 1, 173, 0, 1, 0, 202, 2, 69, 0, 251, 1, 181, 0, 3, 101, 146, 0, 0, 0, 1,
   0, 12, 19, 208, 0, 0, 147, 102, 1, 0, 35, 0, 8, 59]

/-- scenario3 is the measurement buffer with swapped header bytes and a
matching checksum, from the test try_from_measurement_invalid_header and
spec Scenario 3. -/
def scenario3 : List Byte :=
  [77, 66, 0, 23, 0, 0, 0, 0, 0, 0, 0, 0, 0, 0, 0, 0, 1, 80, 0, 100, 0, 20, 0, 10, 0, 0,
   0, 0, 0, 37, 1, 173, 0, 1, 0, 202, 2, 69, 0, 251, 1, 181, 0, 3, 101, 146, 0, 0, 0, 1,
   0, 12, 19, 208, 0, 0, 147, 102, 1, 0, 35, 0, 8, 22]

/-- scenario4 is the valid 23-byte module buffer from the test
try_from_module_valid and spec Scenario 4. -/
def scenario4 : List Byte :=
  [66, 77, 0, 19, 65, 80, 67, 49, 45, 73, 8, 110, 169, 135, 242, 77, 68, 134, 45, 0, 35,
   6, 28]

/-- deviceErrorBuffer is a 64-byte buffer with a valid checksum and
header whose device error byte at index 61 is 3. -/
def deviceErrorBuffer : List Byte :=
  [66, 77, 0, 60, 0, 0, 0, 0, 0, 0, 0, 0, 0, 0, 0, 0, 0, 0, 0, 0, 0, 0, 0, 0, 0, 0,
   0, 0, 0, 0, 0, 0, 0, 0, 0, 0, 0, 0, 0, 0, 0, 0, 0, 0, 0, 0, 0, 0, 0, 0,
   0, 0, 0, 0, 0, 0, 0, 0, 0, 0, 0, 3, 0, 206]

/-- overlapBugBuffer is a 64-byte buffer with a valid checksum and
header, device error byte 0, byte 12 equal to 7 and byte 13 equal to 5,
so that the big-endian 16-bit field at offsets 12 and 13 is 1797 while
the decoder output for pm2_5_in_air exposes the duplicated read of byte
12. -/
def overlapBugBuffer : List Byte :=
  [66, 77, 0, 60, 0, 0, 0, 0, 0, 0, 0, 0, 7, 5, 0, 0, 0, 0, 0, 0, 0, 0, 0, 0, 0, 0,
   0, 0, 0, 0, 0, 0, 0, 0, 0, 0, 0, 0, 0, 0, 0, 0, 0, 0, 0, 0, 0, 0, 0, 0,
   0, 0, 0, 0, 0, 0, 0, 0, 0, 0, 0, 0, 0, 215]

/-- nonAsciiModuleBuffer is a 23-byte module buffer with a valid
checksum and header whose six name bytes all lie outside the printable
ASCII range. -/
def nonAsciiModuleBuffer : List Byte :=
  [66, 77, 0, 19, 200, 201, 202, 203, 204, 205, 0, 0, 0, 0, 0, 0, 0, 0, 0, 0, 0,
   5, 97]

/-- exceptIsOk tests whether a decode result is the Ok constructor,
modelling Result::is_ok. -/
def exceptIsOk {α : Type} : Except Error α → Bool
  | .ok _ => true
  | .error _ => false

/-- C1: the claim that the sixteen 16-bit measurement fields come from
sequential non-overlapping big-endian offsets fails in the code: on a
checksum- and header-valid buffer with byte 12 equal to 7 and byte 13
equal to 5, the decoder returns pm2_5_in_air = 1799 = 7 * 256 + 7 (byte
12 read twice), while the big-endian field at offsets 12 and 13 is
1797 = 7 * 256 + 5. -/
theorem pm2_5_in_air_overlapping_read :
    (Measurement.try_from overlapBugBuffer).toOption.map Measurement.pm2_5_in_air
      = some 1799 ∧
    u16_from_be_bytes (overlapBugBuffer.getD 12 0) (overlapBugBuffer.getD 13 0) = 1797 := by
  decide

/-- C3: the claim that each fault flag is reported as a boolean that is
true iff the corresponding bit of the error byte is set fails in the
code: the Display impl XORs the error byte with each bit mask instead of
masking, so for error byte 1 the fan-restart line (bit 0, which is set)
shows the value 0 while the fan-speed-low line (bit 1, which is clear)
shows the nonzero value 3; for error byte 128 (only the unused bit 7
set) every line shows a nonzero value. -/
theorem fault_display_value_not_bit_flag :
    DeviceErrorCode.fault_display_value ⟨1⟩ 0 = 0 ∧
    Nat.testBit 1 0 = true ∧
    DeviceErrorCode.fault_display_value ⟨1⟩ 1 = 3 ∧
    Nat.testBit 1 1 = false ∧
    DeviceErrorCode.fault_display_value ⟨128⟩ 0 = 129 ∧
    Nat.testBit 128 0 = false := by
  decide

/-- C5: for every command variant of both the I2C and the UART command
sets, the big-endian u16 in bytes 5 and 6 of the encoded 7-byte frame
equals the wrapping mod-2^16 byte sum of bytes 0 through 4. -/
theorem command_checksum_roundtrip :
    (∀ c : i2c.Command,
      u16_from_be_bytes (c.to_bytes.getD 5 0) (c.to_bytes.getD 6 0)
        = checksumFold (c.to_bytes.take 5)) ∧
    (∀ c : uart.Command,
      u16_from_be_bytes (c.to_bytes.getD 5 0) (c.to_bytes.getD 6 0)
        = checksumFold (c.to_bytes.take 5)) := by
  constructor <;> intro c <;> cases c <;> decide

/-- C6: every encoded command frame of both variants starts with the
magic bytes 0x42 0x4D and has mode-high byte 0; the opcode and mode-low
bytes per variant are 0xE4 with 0x00, 0x01 and 0x0F for SetIdleMode,
SetActiveMode and Reset, 0xE9 with 0 for ReadModuleId, and on UART 0xE1
with 1 and 0 for SetActiveMeasurement and SetPassiveMeasurement and 0xE2
with 0 for RequestMeasurement; the I2C Reset frame is exactly
0x42 0x4D 0xE4 0x00 0x0F 0x01 0x82. -/
theorem command_frame_layout :
    (∀ c : i2c.Command,
      c.to_bytes.getD 0 0 = byte 0x42 ∧ c.to_bytes.getD 1 0 = byte 0x4D ∧
      c.to_bytes.getD 3 0 = 0) ∧
    (∀ c : uart.Command,
      c.to_bytes.getD 0 0 = byte 0x42 ∧ c.to_bytes.getD 1 0 = byte 0x4D ∧
      c.to_bytes.getD 3 0 = 0) ∧
    i2c.Command.SetIdleMode.to_bytes.getD 2 0 = byte 0xE4 ∧
    i2c.Command.SetIdleMode.to_bytes.getD 4 0 = byte 0x00 ∧
    i2c.Command.SetActiveMode.to_bytes.getD 2 0 = byte 0xE4 ∧
    i2c.Command.SetActiveMode.to_bytes.getD 4 0 = byte 0x01 ∧
    i2c.Command.Reset.to_bytes.getD 2 0 = byte 0xE4 ∧
    i2c.Command.Reset.to_bytes.getD 4 0 = byte 0x0F ∧
    i2c.Command.ReadModuleId.to_bytes.getD 2 0 = byte 0xE9 ∧
    i2c.Command.ReadModuleId.to_bytes.getD 4 0 = byte 0 ∧
    uart.Command.SetIdleMode.to_bytes.getD 2 0 = byte 0xE4 ∧
    uart.Command.SetIdleMode.to_bytes.getD 4 0 = byte 0x00 ∧
    uart.Command.SetActiveMode.to_bytes.getD 2 0 = byte 0xE4 ∧
    uart.Command.SetActiveMode.to_bytes.getD 4 0 = byte 0x01 ∧
    uart.Command.ReadModuleId.to_bytes.getD 2 0 = byte 0xE9 ∧
    uart.Command.ReadModuleId.to_bytes.getD 4 0 = byte 0 ∧
    uart.Command.SetActiveMeasurement.to_bytes.getD 2 0 = byte 0xE1 ∧
    uart.Command.SetActiveMeasurement.to_bytes.getD 4 0 = byte 1 ∧
    uart.Command.SetPassiveMeasurement.to_bytes.getD 2 0 = byte 0xE1 ∧
    uart.Command.SetPassiveMeasurement.to_bytes.getD 4 0 = byte 0 ∧
    uart.Command.RequestMeasurement.to_bytes.getD 2 0 = byte 0xE2 ∧
    uart.Command.RequestMeasurement.to_bytes.getD 4 0 = byte 0 ∧
    i2c.Command.Reset.to_bytes =
      [byte 0x42, byte 0x4D, byte 0xE4, byte 0x00, byte 0x0F, byte 0x01, byte 0x82] := by
  refine ⟨fun c => ?_, fun c => ?_, ?_⟩ <;> first | (cases c <;> decide) | decide

/-- C8: the UART command type is a closed set of exactly six variants
with no reset variant, and no UART command encodes the I2C reset frame:
no encoded UART frame carries opcode byte 0xE4 together with mode-low
byte 0x0F, and no encoded UART frame equals the I2C Reset frame. -/
theorem uart_has_no_reset :
    Fintype.card uart.Command = 6 ∧
    (∀ c : uart.Command,
      ¬(c.to_bytes.getD 2 0 = byte 0xE4 ∧ c.to_bytes.getD 4 0 = byte 0x0F)) ∧
    (∀ c : uart.Command, c.to_bytes ≠ i2c.Command.Reset.to_bytes) := by
  refine ⟨by decide, fun c => ?_, fun c => ?_⟩ <;> cases c <;> decide

/-- moduleChecksumOk abbreviates the checksum validity condition of the
module decoder. -/
abbrev moduleChecksumOk (b : List Byte) : Prop :=
  u16_from_be_bytes (b.getD 21 0) (b.getD 22 0) = checksumFold (b.take 21)

/-- moduleHeaderOk abbreviates the header validity condition of the
module decoder. -/
abbrev moduleHeaderOk (b : List Byte) : Prop :=
  b.take 4 = [byte 0x42, byte 0x4D, byte 0x00, byte 0x13]

/-- measurementChecksumOk abbreviates the checksum validity condition of
the measurement decoder. -/
abbrev measurementChecksumOk (b : List Byte) : Prop :=
  u16_from_be_bytes (b.getD 62 0) (b.getD 63 0) = checksumFold (b.take 62)

/-- measurementHeaderOk abbreviates the header validity condition of the
measurement decoder. -/
abbrev measurementHeaderOk (b : List Byte) : Prop :=
  b.take 4 = [byte 0x42, byte 0x4D, byte 0x00, byte 0x3C]

theorem module_checksum_mismatch_eq (b : List Byte) (h : ¬moduleChecksumOk b) :
    Module.try_from b =
      .error (.Checksum (u16_from_be_bytes (b.getD 21 0) (b.getD 22 0))
        (checksumFold (b.take 21))) := by
  simp only [Module.try_from]
  rw [if_pos h]

theorem module_header_mismatch_eq (b : List Byte) (hc : moduleChecksumOk b)
    (hh : ¬moduleHeaderOk b) :
    Module.try_from b = .error .InvalidHeader := by
  simp only [Module.try_from]
  rw [if_neg (fun h => h hc), if_pos hh]

theorem module_ok_eq (b : List Byte) (hc : moduleChecksumOk b) (hh : moduleHeaderOk b) :
    Module.try_from b = .ok {
      name_and_type := String.mk (((b.drop 4).take 6).map (fun x => Char.ofNat x.val))
      serial_number := u64_from_be_bytes (b.getD 10 0) (b.getD 11 0) (b.getD 12 0)
        (b.getD 13 0) (b.getD 14 0) (b.getD 15 0) (b.getD 16 0) (b.getD 17 0)
      delimiter := Char.ofNat (b.getD 18 0).val
      fw_version_major := (b.getD 19 0).val
      fw_version_minor := (b.getD 20 0).val } := by
  simp only [Module.try_from]
  rw [if_neg (fun h => h hc), if_neg (fun h => h hh)]

theorem measurement_checksum_mismatch_eq (b : List Byte) (h : ¬measurementChecksumOk b) :
    Measurement.try_from b =
      .error (.Checksum (u16_from_be_bytes (b.getD 62 0) (b.getD 63 0))
        (checksumFold (b.take 62))) := by
  simp only [Measurement.try_from]
  rw [if_pos h]

theorem measurement_header_mismatch_eq (b : List Byte) (hc : measurementChecksumOk b)
    (hh : ¬measurementHeaderOk b) :
    Measurement.try_from b = .error .InvalidHeader := by
  simp only [Measurement.try_from]
  rw [if_neg (fun h => h hc), if_pos hh]

theorem measurement_device_error_eq (b : List Byte) (hc : measurementChecksumOk b)
    (hh : measurementHeaderOk b) (hd : b.getD 61 0 ≠ 0) :
    Measurement.try_from b = .error (.Device ⟨b.getD 61 0⟩) := by
  simp only [Measurement.try_from]
  rw [if_neg (fun h => h hc), if_neg (fun h => h hh), if_pos hd]

theorem measurement_ok_eq (b : List Byte) (hc : measurementChecksumOk b)
    (hh : measurementHeaderOk b) (hd : b.getD 61 0 = 0) :
    Measurement.try_from b = .ok {
      pm1_0 := u16_from_be_bytes (b.getD 4 0) (b.getD 5 0)
      pm2_5 := u16_from_be_bytes (b.getD 6 0) (b.getD 7 0)
      pm10 := u16_from_be_bytes (b.getD 8 0) (b.getD 9 0)
      pm1_0_in_air := u16_from_be_bytes (b.getD 10 0) (b.getD 11 0)
      pm2_5_in_air := u16_from_be_bytes (b.getD 12 0) (b.getD 12 0)
      pm10_in_air := u16_from_be_bytes (b.getD 14 0) (b.getD 15 0)
      um_0_3_particles := u16_from_be_bytes (b.getD 16 0) (b.getD 17 0)
      um_0_5_particles := u16_from_be_bytes (b.getD 18 0) (b.getD 19 0)
      um_1_particles := u16_from_be_bytes (b.getD 20 0) (b.getD 21 0)
      um_2_5_particles := u16_from_be_bytes (b.getD 22 0) (b.getD 23 0)
      um_5_particles := u16_from_be_bytes (b.getD 24 0) (b.getD 25 0)
      um_10_particles := u16_from_be_bytes (b.getD 26 0) (b.getD 27 0)
      tvoc := u16_from_be_bytes (b.getD 28 0) (b.getD 29 0)
      eco2 := u16_from_be_bytes (b.getD 30 0) (b.getD 31 0)
      reserved0 := u16_from_be_bytes (b.getD 32 0) (b.getD 33 0)
      t_comp := u16_from_be_bytes (b.getD 34 0) (b.getD 35 0)
      rh_comp := u16_from_be_bytes (b.getD 36 0) (b.getD 37 0)
      t_raw := u16_from_be_bytes (b.getD 38 0) (b.getD 39 0)
      rh_raw := u16_from_be_bytes (b.getD 40 0) (b.getD 41 0)
      rs_0 := u32_from_be_bytes (b.getD 42 0) (b.getD 43 0) (b.getD 44 0) (b.getD 45 0)
      rs_1 := u32_from_be_bytes (b.getD 46 0) (b.getD 47 0) (b.getD 48 0) (b.getD 49 0)
      rs_2 := u32_from_be_bytes (b.getD 50 0) (b.getD 51 0) (b.getD 52 0) (b.getD 53 0)
      rs_3 := u32_from_be_bytes (b.getD 54 0) (b.getD 55 0) (b.getD 56 0) (b.getD 57 0)
      aqi := (b.getD 58 0).val
      reserved1 := (b.getD 59 0).val
      version := (b.getD 60 0).val } := by
  simp only [Measurement.try_from]
  rw [if_neg (fun h => h hc), if_neg (fun h => h hh), if_neg (fun h => h hd)]

/-- C2: a 23-byte buffer decodes to Ok as a module frame iff the
big-endian u16 at bytes 21 and 22 equals the wrapping byte sum of bytes
0 through 20 and the first four bytes are 0x42 0x4D 0x00 0x13; a 64-byte
buffer decodes to Ok as a measurement frame iff the big-endian u16 at
bytes 62 and 63 equals the wrapping byte sum of bytes 0 through 61, the
first four bytes are 0x42 0x4D 0x00 0x3C, and byte 61 is zero. -/
theorem decode_ok_iff_checksum_header :
    (∀ b : List Byte, b.length = 23 →
      (exceptIsOk (Module.try_from b) = true ↔
        u16_from_be_bytes (b.getD 21 0) (b.getD 22 0) = checksumFold (b.take 21) ∧
        b.take 4 = [byte 0x42, byte 0x4D, byte 0x00, byte 0x13])) ∧
    (∀ b : List Byte, b.length = 64 →
      (exceptIsOk (Measurement.try_from b) = true ↔
        u16_from_be_bytes (b.getD 62 0) (b.getD 63 0) = checksumFold (b.take 62) ∧
        b.take 4 = [byte 0x42, byte 0x4D, byte 0x00, byte 0x3C] ∧
        b.getD 61 0 = 0)) := by
  constructor
  · intro b _
    constructor
    · intro hok
      by_cases hc : moduleChecksumOk b
      · by_cases hh : moduleHeaderOk b
        · exact ⟨hc, hh⟩
        · rw [module_header_mismatch_eq b hc hh] at hok
          exact absurd hok (by simp [exceptIsOk])
      · rw [module_checksum_mismatch_eq b hc] at hok
        exact absurd hok (by simp [exceptIsOk])
    · rintro ⟨hc, hh⟩
      rw [module_ok_eq b hc hh]
      rfl
  · intro b _
    constructor
    · intro hok
      by_cases hc : measurementChecksumOk b
      · by_cases hh : measurementHeaderOk b
        · by_cases hd : b.getD 61 0 = 0
          · exact ⟨hc, hh, hd⟩
          · rw [measurement_device_error_eq b hc hh hd] at hok
            exact absurd hok (by simp [exceptIsOk])
        · rw [measurement_header_mismatch_eq b hc hh] at hok
          exact absurd hok (by simp [exceptIsOk])
      · rw [measurement_checksum_mismatch_eq b hc] at hok
        exact absurd hok (by simp [exceptIsOk])
    · rintro ⟨hc, hh, hd⟩
      rw [measurement_ok_eq b hc hh hd]
      rfl

/-- C2 witness: instantiating the theorem on the concrete scenario
buffers. -/
theorem decode_ok_iff_checksum_header_witness :
    exceptIsOk (Module.try_from scenario4) = true ∧
    exceptIsOk (Measurement.try_from scenario1) = true :=
  ⟨(decode_ok_iff_checksum_header.1 scenario4 (by decide)).2 (by decide),
   (decode_ok_iff_checksum_header.2 scenario1 (by decide)).2 (by decide)⟩

/-- C4: measurement validation checks the checksum first and the header
second: any 64-byte buffer whose computed byte sum differs from the
trailing big-endian u16 yields the Checksum error carrying the trailing
field as expected and the computed sum as actual, whatever the header
and byte 61 hold; the Scenario 1 buffer with byte 11 incremented yields
Checksum with expected 2107 and actual 2108; and any checksum-valid
64-byte buffer with a wrong header yields InvalidHeader, whatever byte
61 holds. -/
theorem measurement_validation_order :
    (∀ b : List Byte, b.length = 64 →
      u16_from_be_bytes (b.getD 62 0) (b.getD 63 0) ≠ checksumFold (b.take 62) →
      Measurement.try_from b =
        .error (.Checksum (u16_from_be_bytes (b.getD 62 0) (b.getD 63 0))
          (checksumFold (b.take 62)))) ∧
    Measurement.try_from scenario2 = .error (.Checksum 2107 2108) ∧
    (∀ b : List Byte, b.length = 64 →
      u16_from_be_bytes (b.getD 62 0) (b.getD 63 0) = checksumFold (b.take 62) →
      b.take 4 ≠ [byte 0x42, byte 0x4D, byte 0x00, byte 0x3C] →
      Measurement.try_from b = .error .InvalidHeader) :=
  ⟨fun b _ hne => measurement_checksum_mismatch_eq b hne,
   by decide,
   fun b _ heq hhd => measurement_header_mismatch_eq b heq hhd⟩

/-- C4 witness: instantiating the theorem on the Scenario 2 buffer and
on the swapped-header Scenario 3 buffer. -/
theorem measurement_validation_order_witness :
    Measurement.try_from scenario2 =
      .error (.Checksum (u16_from_be_bytes (scenario2.getD 62 0) (scenario2.getD 63 0))
        (checksumFold (scenario2.take 62))) ∧
    Measurement.try_from scenario3 = .error .InvalidHeader :=
  ⟨measurement_validation_order.1 scenario2 (by decide) (by decide),
   measurement_validation_order.2.2 scenario3 (by decide) (by decide) (by decide)⟩

/-- C7: on every checksum- and header-valid 23-byte buffer, the module
decoder returns the record built from the six name bytes at offsets 4
through 9 each mapped one-to-one to a character, the big-endian u64 at
offsets 10 through 17, the delimiter character of byte 18, and the
firmware bytes 19 and 20; on the Scenario 4 buffer this record has name
APC1-I, serial number 607609401092424838, delimiter the dash character,
firmware major 0 and firmware minor 35. -/
theorem module_field_extraction :
    (∀ b : List Byte, b.length = 23 →
      u16_from_be_bytes (b.getD 21 0) (b.getD 22 0) = checksumFold (b.take 21) →
      b.take 4 = [byte 0x42, byte 0x4D, byte 0x00, byte 0x13] →
      Module.try_from b = .ok {
        name_and_type := String.mk (((b.drop 4).take 6).map (fun x => Char.ofNat x.val))
        serial_number := u64_from_be_bytes (b.getD 10 0) (b.getD 11 0) (b.getD 12 0)
          (b.getD 13 0) (b.getD 14 0) (b.getD 15 0) (b.getD 16 0) (b.getD 17 0)
        delimiter := Char.ofNat (b.getD 18 0).val
        fw_version_major := (b.getD 19 0).val
        fw_version_minor := (b.getD 20 0).val }) ∧
    Module.try_from scenario4 = .ok ⟨"APC1-I", 607609401092424838, '-', 0, 35⟩ :=
  ⟨fun b _ hc hh => module_ok_eq b hc hh, by decide⟩

/-- C7 witness: instantiating the theorem on the Scenario 4 buffer. -/
theorem module_field_extraction_witness :
    Module.try_from scenario4 = .ok {
      name_and_type :=
        String.mk (((scenario4.drop 4).take 6).map (fun x => Char.ofNat x.val))
      serial_number := u64_from_be_bytes (scenario4.getD 10 0) (scenario4.getD 11 0)
        (scenario4.getD 12 0) (scenario4.getD 13 0) (scenario4.getD 14 0)
        (scenario4.getD 15 0) (scenario4.getD 16 0) (scenario4.getD 17 0)
      delimiter := Char.ofNat (scenario4.getD 18 0).val
      fw_version_major := (scenario4.getD 19 0).val
      fw_version_minor := (scenario4.getD 20 0).val } :=
  module_field_extraction.1 scenario4 (by decide) (by decide) (by decide)

/-- C9: module name decoding is permissive: every 23-byte buffer passing
the checksum and header checks decodes to Ok whatever its six name bytes
are, and the module decoder never returns the InvalidName error on any
input. -/
theorem module_decode_permissive :
    (∀ b : List Byte, b.length = 23 →
      u16_from_be_bytes (b.getD 21 0) (b.getD 22 0) = checksumFold (b.take 21) →
      b.take 4 = [byte 0x42, byte 0x4D, byte 0x00, byte 0x13] →
      exceptIsOk (Module.try_from b) = true) ∧
    (∀ b : List Byte, Module.try_from b ≠ .error .InvalidName) := by
  constructor
  · intro b _ hc hh
    rw [module_ok_eq b hc hh]
    rfl
  · intro b
    by_cases hc : moduleChecksumOk b
    · by_cases hh : moduleHeaderOk b
      · rw [module_ok_eq b hc hh]
        simp
      · rw [module_header_mismatch_eq b hc hh]
        simp
    · rw [module_checksum_mismatch_eq b hc]
      simp

/-- C9 witness: instantiating the theorem on a checksum- and
header-valid module buffer whose six name bytes all lie outside the
printable ASCII range. -/
theorem module_decode_permissive_witness :
    exceptIsOk (Module.try_from nonAsciiModuleBuffer) = true ∧
    Module.try_from nonAsciiModuleBuffer ≠ .error .InvalidName :=
  ⟨module_decode_permissive.1 nonAsciiModuleBuffer (by decide) (by decide) (by decide),
   module_decode_permissive.2 nonAsciiModuleBuffer⟩

/-- C10: for every 64-byte buffer, a Device error always wraps the
nonzero byte 61 of the buffer, a Device error wrapping the zero code is
never returned, and an Ok result only arises from a buffer whose byte 61
is zero. -/
theorem device_error_invariants :
    ∀ b : List Byte, b.length = 64 →
      (∀ e : DeviceErrorCode, Measurement.try_from b = .error (.Device e) →
        e.code = b.getD 61 0 ∧ e.code ≠ 0) ∧
      Measurement.try_from b ≠ .error (.Device ⟨0⟩) ∧
      (∀ m : Measurement, Measurement.try_from b = .ok m → b.getD 61 0 = 0) := by
  intro b _
  by_cases hc : measurementChecksumOk b
  · by_cases hh : measurementHeaderOk b
    · by_cases hd : b.getD 61 0 = 0
      · rw [measurement_ok_eq b hc hh hd]
        exact ⟨fun e he => absurd he (by simp), by simp, fun m _ => hd⟩
      · rw [measurement_device_error_eq b hc hh hd]
        refine ⟨fun e he => ?_, fun hcontra => ?_, fun m hm => absurd hm (by simp)⟩
        · obtain rfl : (⟨b.getD 61 0⟩ : DeviceErrorCode) = e :=
            Error.Device.inj (Except.error.inj he)
          exact ⟨rfl, hd⟩
        · exact hd (congrArg DeviceErrorCode.code
            (Error.Device.inj (Except.error.inj hcontra)))
    · rw [measurement_header_mismatch_eq b hc hh]
      exact ⟨fun e he => absurd he (by simp), by simp, fun m hm => absurd hm (by simp)⟩
  · rw [measurement_checksum_mismatch_eq b hc]
    exact ⟨fun e he => absurd he (by simp), by simp, fun m hm => absurd hm (by simp)⟩

/-- C10 witness: instantiating the theorem on the valid Scenario 1
buffer and on a buffer whose device error byte is 3. -/
theorem device_error_invariants_witness :
    Measurement.try_from scenario1 ≠ .error (.Device ⟨0⟩) ∧
    Measurement.try_from deviceErrorBuffer ≠ .error (.Device ⟨0⟩) :=
  ⟨(device_error_invariants scenario1 (by decide)).2.1,
   (device_error_invariants deviceErrorBuffer (by decide)).2.1⟩

end Apc1
